import Mathlib

/-!
Shallow embedding of the exoscale-csi-driver storage plugin (Go), restricted to
the identifier codec, the capacity negotiator, the controller volume lifecycle
handlers and the node publish/stage handlers, together with proofs about them.

Go strings are modelled as `List Char`; Go `int64` values as `Int` (no
arithmetic here comes near the 64-bit boundary); fallible Go functions as
`Except`; calls to the remote provider and to the operating system as fields of
an explicit environment record, with the list of calls actually issued returned
as a trace.  `helpers.go` in the sources contains two concatenated revisions of
the controller service; the later revision (GiB-based sizes, multi-zone
clients) is the one embedded here.
-/

namespace ExoCSI

/-- Go strings, modelled as lists of characters. -/
abbrev GoString := List Char

/-- Literal helper: the character list of a Lean string literal. -/
def gs (s : String) : GoString := s.data

/-- Go `strings.Split(s, "/")` for the one-character separator used by
`getExoscaleID` (helpers.go line 21). -/
def splitSlash : GoString → List GoString
  | [] => [[]]
  | c :: rest =>
    if c = '/' then [] :: splitSlash rest
    else
      match splitSlash rest with
      | [] => [[c]]
      | s :: ss => (c :: s) :: ss

theorem splitSlash_ne_nil (s : GoString) : splitSlash s ≠ [] := by
  induction s with
  | nil => simp [splitSlash]
  | cons c rest ih =>
    simp only [splitSlash]
    split
    · simp
    · split
      · simp
      · simp

theorem splitSlash_no_slash {s : GoString} (h : '/' ∉ s) : splitSlash s = [s] := by
  induction s with
  | nil => rfl
  | cons c rest ih =>
    simp only [List.mem_cons, not_or] at h
    have hc : ¬ c = '/' := fun hc => h.1 hc.symm
    simp only [splitSlash, if_neg hc, ih h.2]

theorem splitSlash_append {a b : GoString} (h : '/' ∉ a) :
    splitSlash (a ++ '/' :: b) = a :: splitSlash b := by
  induction a with
  | nil => simp [splitSlash]
  | cons c rest ih =>
    simp only [List.mem_cons, not_or] at h
    have hc : ¬ c = '/' := fun hc => h.1 hc.symm
    have := ih h.2
    simp only [List.cons_append, splitSlash, if_neg hc, List.append_eq, this]

/-- Hexadecimal digit test, matching the character classes accepted by the
external UUID parser. -/
def isHexChar (c : Char) : Bool :=
  (('0' ≤ c) && (c ≤ '9')) || (('a' ≤ c) && (c ≤ 'f')) || (('A' ≤ c) && (c ≤ 'F'))

/-- Position `i` of a canonical UUID string holds a dash at offsets 8, 13, 18
and 23 and a hexadecimal digit everywhere else. -/
def uuidCharOK (i : Nat) (c : Char) : Bool :=
  if i = 8 ∨ i = 13 ∨ i = 18 ∨ i = 23 then c = '-' else isHexChar c

/-- Canonical dashed UUID shape: 36 characters laid out 8-4-4-4-12. -/
def isUUIDFormat (s : GoString) : Bool :=
  s.length = 36 && (List.range 36).all (fun i => uuidCharOK i (s.getD i ' '))

/-- Modelled boundary of the external UUID library: `v3.ParseUUID` (external
dependency `egoscale`, not part of this repository) accepts a canonical dashed
UUID and yields the validated string unchanged, and fails on anything else. -/
def parseUUID (s : GoString) : Except Unit GoString :=
  if isUUIDFormat s then .ok s else .error ()

theorem slash_not_uuidCharOK (i : Nat) : uuidCharOK i '/' = false := by
  unfold uuidCharOK
  split <;> decide

theorem isUUIDFormat_no_slash {s : GoString} (h : isUUIDFormat s = true) :
    '/' ∉ s := by
  intro hmem
  unfold isUUIDFormat at h
  simp only [Bool.and_eq_true, List.all_eq_true, decide_eq_true_eq] at h
  obtain ⟨hlen, hall⟩ := h
  obtain ⟨i, hi, hget⟩ := List.mem_iff_getElem.mp hmem
  have hi36 : i < 36 := by omega
  have := hall i (List.mem_range.mpr hi36)
  rw [List.getD_eq_getElem s ' ' (by omega), hget] at this
  rw [slash_not_uuidCharOK] at this
  exact Bool.false_ne_true this

/-- Decode failures of `getExoscaleID` (helpers.go lines 20-32): wrong number
of `/`-separated segments, or a second segment the UUID parser rejects. -/
inductive DecodeErr where
  | malformedExoscaleID
  | invalidUUID
deriving DecidableEq

/-- `exoscaleID` (helpers.go lines 15-17): format `"<zone>/<uuid>"`. -/
def exoscaleID (zoneName : GoString) (id : GoString) : GoString :=
  zoneName ++ '/' :: id

/-- `getExoscaleID` (helpers.go lines 20-32): split on `/`, demand exactly two
segments, parse the second as a UUID. -/
def getExoscaleID (exoID : GoString) : Except DecodeErr (GoString × GoString) :=
  match splitSlash exoID with
  | [z, u] =>
    match parseUUID u with
    | .error _ => .error .invalidUUID
    | .ok id => .ok (z, id)
  | _ => .error .malformedExoscaleID

/-- `newZoneTopology` (helpers.go lines 35-41), reduced to the zone names of
the single topology segment it builds. -/
def newZoneTopology (zoneName : GoString) : List GoString := [zoneName]

/-! ### Sizes and the capacity negotiator -/

/-- One gibibyte in bytes. -/
def GiB : Int := 1024 * 1024 * 1024

/-- helpers.go line 862. -/
def DefaultVolumeSizeGiB : Int := 100

/-- helpers.go line 863. -/
def MinimalVolumeSizeGiB : Int := 10

/-- helpers.go line 864. -/
def MaximumVolumeSizeGiB : Int := 10000

/-- Modelled from the spec: the exact GiB-to-bytes conversion helper
`convertGiBToBytes`, whose body is absent from the sources (only callers in
helpers.go and helpers_test.go remain); the spec demands exact, remainder-free
unit conversion. -/
def convertGiBToBytes (g : Int) : Int := g * GiB

/-- Modelled from the spec: the bytes-to-GiB conversion helper
`convertBytesToGiB`, absent from the sources; every caller first checks
divisibility by `GiB`, so truncating division is exact where used. -/
def convertBytesToGiB (b : Int) : Int := Int.tdiv b GiB

def MinimalVolumeSizeBytes : Int := convertGiBToBytes MinimalVolumeSizeGiB

def MaximumVolumeSizeBytes : Int := convertGiBToBytes MaximumVolumeSizeGiB

/-- The request pair of a CSI capacity range; zero means unset. -/
structure CapacityRange where
  requiredBytes : Int
  limitBytes : Int
deriving DecidableEq

/-- The five distinguished negotiation failures of errors.go lines 5-11. -/
inductive SizeErr where
  | limitLessThanRequiredBytes
  | requiredBytesLessThanMinimun
  | limitLessThanMinimum
  | requiredBytesGreaterThanMaximun
  | limitGreaterThanMaximum
deriving DecidableEq

/-- Modelled from the spec: the body of `getNewVolumeSize` is absent from the
sources (only its callers in helpers.go and its test table in helpers_test.go
remain), so the ten-rule policy of spec section 4.2 is transcribed here,
parameterised by the minimum and maximum byte bounds; a value is "set" when it
is strictly positive. -/
def getNewVolumeSizeWith (minB maxB : Int) (capRange : Option CapacityRange) :
    Except SizeErr Int :=
  match capRange with
  | none => .ok minB
  | some cr =>
    let required := cr.requiredBytes
    let limit := cr.limitBytes
    if !decide (0 < required) && !decide (0 < limit) then .ok minB
    else if decide (0 < required) && decide (0 < limit) && decide (limit < required) then
      .error .limitLessThanRequiredBytes
    else if decide (0 < required) && !decide (0 < limit) && decide (required < minB) then
      .error .requiredBytesLessThanMinimun
    else if decide (0 < limit) && decide (limit < minB) then
      .error .limitLessThanMinimum
    else if decide (0 < required) && decide (maxB < required) then
      .error .requiredBytesGreaterThanMaximun
    else if !decide (0 < required) && decide (0 < limit) && decide (maxB < limit) then
      .error .limitGreaterThanMaximum
    else if decide (0 < required) && decide (0 < limit) && decide (required = limit) then
      .ok required
    else if decide (0 < required) then .ok required
    else if decide (0 < limit) then .ok limit
    else .ok minB

/-- `getNewVolumeSize` as used by the driver: bounds are 10 GiB and 10000 GiB
(helpers.go lines 863-864, helpers_test.go lines 13-14). -/
def getNewVolumeSize (capRange : Option CapacityRange) : Except SizeErr Int :=
  getNewVolumeSizeWith MinimalVolumeSizeBytes MaximumVolumeSizeBytes capRange

/-- The ten guards of spec section 4.2, in their stated order, as a list of
(guard, outcome) pairs over a given capacity range. -/
def negotiationRules (minB maxB required limit : Int) :
    List (Bool × Except SizeErr Int) :=
  [ (!decide (0 < required) && !decide (0 < limit), .ok minB),
    (decide (0 < required) && decide (0 < limit) && decide (limit < required),
      .error .limitLessThanRequiredBytes),
    (decide (0 < required) && !decide (0 < limit) && decide (required < minB),
      .error .requiredBytesLessThanMinimun),
    (decide (0 < limit) && decide (limit < minB), .error .limitLessThanMinimum),
    (decide (0 < required) && decide (maxB < required),
      .error .requiredBytesGreaterThanMaximun),
    (!decide (0 < required) && decide (0 < limit) && decide (maxB < limit),
      .error .limitGreaterThanMaximum),
    (decide (0 < required) && decide (0 < limit) && decide (required = limit),
      .ok required),
    (decide (0 < required), .ok required),
    (decide (0 < limit), .ok limit),
    (true, .ok minB) ]

/-- First-match evaluation of an ordered guard list. -/
def firstMatch : List (Bool × Except SizeErr Int) → Except SizeErr Int
  | [] => .ok 0
  | (g, o) :: rest => if g then o else firstMatch rest

/-- Conformance of the spec-modelled negotiator with the eleven-row test table
of `TestGetNewVolumeSize` (helpers_test.go lines 12-115). -/
theorem getNewVolumeSize_matches_source_tests :
    getNewVolumeSize (some ⟨0, 0⟩) = .ok MinimalVolumeSizeBytes ∧
    getNewVolumeSize (some ⟨MinimalVolumeSizeBytes + 10, 0⟩) = .ok (MinimalVolumeSizeBytes + 10) ∧
    getNewVolumeSize (some ⟨0, MinimalVolumeSizeBytes + 10⟩) = .ok (MinimalVolumeSizeBytes + 10) ∧
    getNewVolumeSize (some ⟨MinimalVolumeSizeBytes - 10, 0⟩) = .error .requiredBytesLessThanMinimun ∧
    getNewVolumeSize (some ⟨0, MinimalVolumeSizeBytes - 10⟩) = .error .limitLessThanMinimum ∧
    getNewVolumeSize (some ⟨MinimalVolumeSizeBytes + 10, MinimalVolumeSizeBytes + 5⟩) = .error .limitLessThanRequiredBytes ∧
    getNewVolumeSize (some ⟨MaximumVolumeSizeBytes + 10, 0⟩) = .error .requiredBytesGreaterThanMaximun ∧
    getNewVolumeSize (some ⟨0, MaximumVolumeSizeBytes + 10⟩) = .error .limitGreaterThanMaximum ∧
    getNewVolumeSize (some ⟨MinimalVolumeSizeBytes + 10, MinimalVolumeSizeBytes + 10⟩) = .ok (MinimalVolumeSizeBytes + 10) ∧
    getNewVolumeSize (some ⟨MinimalVolumeSizeBytes + 10, MinimalVolumeSizeBytes + 20⟩) = .ok (MinimalVolumeSizeBytes + 10) := by
  refine ⟨?_, ?_, ?_, ?_, ?_, ?_, ?_, ?_, ?_, ?_⟩ <;> rfl

/-! ### Errors and the provider environment -/

/-- gRPC status codes used by the driver. -/
inductive Code where
  | invalidArgument
  | notFound
  | alreadyExists
  | failedPrecondition
  | aborted
  | outOfRange
  | internal
  | unimplemented
  | unknown
deriving DecidableEq

/-- How `errors.Is` classifies a provider error: `v3.ErrNotFound`,
`v3.ErrInvalidRequest`, or anything else. -/
inductive ApiErrKind where
  | notFound
  | invalidRequest
  | otherErr
deriving DecidableEq

/-- An error returned by the cloud provider API, with its message text. -/
structure ApiError where
  kind : ApiErrKind
  msg : GoString
deriving DecidableEq

/-- The error values a controller or node handler can return: a raw decode
error, a gRPC status error, a provider error returned unchanged, the wrapped
`newClientZone` failure, or a plain formatted error. -/
inductive DriverError where
  | decode (e : DecodeErr)
  | stat (code : Code) (msg : GoString)
  | api (e : ApiError)
  | zoneEndpointErr (e : ApiError)
  | plain (msg : GoString)
deriving DecidableEq

/-- Whether a handler result is an InvalidArgument-coded status error. -/
def isInvalidArgumentResult {α : Type} : Except DriverError α → Bool
  | .error (.stat .invalidArgument _) => true
  | _ => false

/-- Go `strings.HasPrefix`-style list test used by `goContains`. -/
def listStartsWith : GoString → GoString → Bool
  | [], _ => true
  | _ :: _, [] => false
  | a :: as, b :: bs => a = b && listStartsWith as bs

/-- Go `strings.Contains(s, sub)`. -/
def goContains (sub : GoString) : GoString → Bool
  | [] => listStartsWith sub []
  | c :: rest => listStartsWith sub (c :: rest) || goContains sub rest

/-- A remote block storage volume as the provider reports it (current API
revision: `Size` is in GiB). -/
structure Volume where
  id : GoString
  name : GoString
  size : Int
  instanceID : Option GoString
  snapshotIDs : List GoString
deriving DecidableEq

/-- A block storage snapshot as the provider reports it. -/
structure Snapshot where
  id : GoString
  name : GoString
  createdAt : Int
deriving DecidableEq

/-- A long-running provider operation handle; `refID` is `op.Reference.ID`
(`none` when `Reference` is nil). -/
structure Operation where
  refID : Option GoString
deriving DecidableEq

/-- The create request the driver submits to the provider
(`v3.CreateBlockStorageVolumeRequest`): name, size in GiB, optional snapshot
source. -/
structure CreateVolumeApiRequest where
  name : GoString
  size : Int
  snapshotTarget : Option GoString
deriving DecidableEq

/-- One call the driver issues to the provider API. -/
inductive Action where
  | zoneEndpointCall (zone : GoString)
  | listVolumesCall
  | getVolumeCall (id : GoString)
  | getSnapshotCall (id : GoString)
  | deleteVolumeCall (id : GoString)
  | deleteSnapshotCall (id : GoString)
  | detachCall (id : GoString)
  | createVolumeCall (r : CreateVolumeApiRequest)
  | createSnapshotCall (volID : GoString) (name : GoString)
  | resizeCall (id : GoString) (sizeGiB : Int)
  | waitCall
deriving DecidableEq

/-- The provider API as seen by the controller service: one pure field per
endpoint the embedded handlers call. -/
structure Env where
  nodeZone : GoString
  zoneEndpoint : GoString → Except ApiError Unit
  listVolumes : Except ApiError (List Volume)
  getVolume : GoString → Except ApiError Volume
  getSnapshot : GoString → Except ApiError Snapshot
  deleteVolumeApi : GoString → Except ApiError Operation
  deleteSnapshotApi : GoString → Except ApiError Operation
  detachVolumeApi : GoString → Except ApiError Operation
  createVolumeApi : CreateVolumeApiRequest → Except ApiError Operation
  createSnapshotApi : GoString → GoString → Except ApiError Operation
  resizeVolumeApi : GoString → Int → Except ApiError Operation
  validateReq : CreateVolumeApiRequest → Except GoString Unit
  wait : Operation → Except ApiError Operation

/-! ### Controller handlers -/

/-- `DeleteVolume` (helpers.go lines 996-1029): decode, resolve the zone
client, delete; a NotFound provider error is success. -/
def deleteVolume (env : Env) (volumeIDArg : GoString) :
    Except DriverError Unit × List Action :=
  match getExoscaleID volumeIDArg with
  | .error e => (.error (.decode e), [])
  | .ok (zoneName, volumeID) =>
    match env.zoneEndpoint zoneName with
    | .error e => (.error (.zoneEndpointErr e), [.zoneEndpointCall zoneName])
    | .ok _ =>
      match env.deleteVolumeApi volumeID with
      | .error e =>
        if e.kind = ApiErrKind.notFound then
          (.ok (), [.zoneEndpointCall zoneName, .deleteVolumeCall volumeID])
        else
          (.error (.api e), [.zoneEndpointCall zoneName, .deleteVolumeCall volumeID])
      | .ok op =>
        match env.wait op with
        | .error e =>
          (.error (.api e),
            [.zoneEndpointCall zoneName, .deleteVolumeCall volumeID, .waitCall])
        | .ok _ =>
          (.ok (), [.zoneEndpointCall zoneName, .deleteVolumeCall volumeID, .waitCall])

/-- `DeleteSnapshot` (helpers.go lines 1363-1391): same idempotent-delete
convention as `DeleteVolume`. -/
def deleteSnapshot (env : Env) (snapshotIDArg : GoString) :
    Except DriverError Unit × List Action :=
  match getExoscaleID snapshotIDArg with
  | .error e => (.error (.decode e), [])
  | .ok (zoneName, snapshotID) =>
    match env.zoneEndpoint zoneName with
    | .error e => (.error (.zoneEndpointErr e), [.zoneEndpointCall zoneName])
    | .ok _ =>
      match env.deleteSnapshotApi snapshotID with
      | .error e =>
        if e.kind = ApiErrKind.notFound then
          (.ok (), [.zoneEndpointCall zoneName, .deleteSnapshotCall snapshotID])
        else
          (.error (.api e), [.zoneEndpointCall zoneName, .deleteSnapshotCall snapshotID])
      | .ok op =>
        match env.wait op with
        | .error e =>
          (.error (.api e),
            [.zoneEndpointCall zoneName, .deleteSnapshotCall snapshotID, .waitCall])
        | .ok _ =>
          (.ok (), [.zoneEndpointCall zoneName, .deleteSnapshotCall snapshotID, .waitCall])

/-- The provider message fragment `ControllerUnpublishVolume` treats as
already-detached (helpers.go line 1123). -/
def volumeNotAttachedMsg : GoString := gs "Volume not attached"

/-- `ControllerUnpublishVolume` (helpers.go lines 1105-1138): detach; NotFound
or an InvalidRequest mentioning "Volume not attached" is success. -/
def controllerUnpublishVolume (env : Env) (volumeIDArg : GoString) :
    Except DriverError Unit × List Action :=
  match getExoscaleID volumeIDArg with
  | .error e => (.error (.decode e), [])
  | .ok (zoneName, volumeID) =>
    match env.zoneEndpoint zoneName with
    | .error e => (.error (.zoneEndpointErr e), [.zoneEndpointCall zoneName])
    | .ok _ =>
      match env.detachVolumeApi volumeID with
      | .error e =>
        if e.kind = ApiErrKind.notFound ∨
            (e.kind = ApiErrKind.invalidRequest ∧ goContains volumeNotAttachedMsg e.msg) then
          (.ok (), [.zoneEndpointCall zoneName, .detachCall volumeID])
        else
          (.error (.api e), [.zoneEndpointCall zoneName, .detachCall volumeID])
      | .ok op =>
        match env.wait op with
        | .error e =>
          (.error (.api e),
            [.zoneEndpointCall zoneName, .detachCall volumeID, .waitCall])
        | .ok _ =>
          (.ok (), [.zoneEndpointCall zoneName, .detachCall volumeID, .waitCall])

/-! ### Volume capabilities -/

/-- CSI access modes relevant to the driver; `unknownMode` is the protobuf
zero value reported when no access mode is set. -/
inductive AccessMode where
  | unknownMode
  | singleNodeWriter
  | singleNodeMultiWriter
  | otherMode
deriving DecidableEq

/-- The capability access type: raw block, or a mounted filesystem with its
type and mount flags.  In the protobuf this is a `oneof`, so block and mount
can never be set together (which is why the `mount && block` panic guard in
`validateVolumeCapability`, helpers.go line 56, is unreachable). -/
inductive AccessType where
  | block
  | mount (fsType : GoString) (mountFlags : List GoString)
deriving DecidableEq

structure VolumeCapability where
  accessMode : Option AccessMode
  accessType : Option AccessType
deriving DecidableEq

/-- helpers.go lines 846-854. -/
def supportedAccessModes : List AccessMode :=
  [.singleNodeWriter, .singleNodeMultiWriter]

/-- `validateVolumeCapability` (helpers.go lines 43-60): nil capability is an
error; any supported access mode passes; otherwise "access mode not
supported". -/
def validateVolumeCapability : Option VolumeCapability → Except GoString Unit
  | none => .error (gs "volumeCapability is nil")
  | some vc =>
    if (vc.accessMode.getD .unknownMode) ∈ supportedAccessModes then .ok ()
    else .error (gs "access mode not supported")

/-- Whether the capability's access type is raw block, as tested by the Go
type assertion `GetAccessType().(*csi.VolumeCapability_Block)`. -/
def VolumeCapability.isBlock (vc : VolumeCapability) : Bool :=
  match vc.accessType with
  | some .block => true
  | _ => false

/-- Whether `GetMount()` is non-nil. -/
def VolumeCapability.isMount (vc : VolumeCapability) : Bool :=
  match vc.accessType with
  | some (.mount _ _) => true
  | _ => false

/-! ### ControllerExpandVolume -/

structure ExpandRequest where
  volumeId : GoString
  capacityRange : Option CapacityRange
  volumeCapability : Option VolumeCapability
deriving DecidableEq

structure ExpandResponse where
  capacityBytes : Int
  nodeExpansionRequired : Bool
deriving DecidableEq

/-- `ControllerExpandVolume` (helpers.go lines 1464-1525, the current
revision): decode, fetch the volume purely as an existence check (its value is
discarded, `_, err =` on line 1477), compute the node-expansion flag, resolve
the new size with `getNewVolumeSize`, demand exact GiB divisibility, and
submit the resize.  Unlike the superseded revision (lines 730-737) there is no
comparison of the new size against the volume's current size. -/
def controllerExpandVolume (env : Env) (req : ExpandRequest) :
    Except DriverError ExpandResponse × List Action :=
  match getExoscaleID req.volumeId with
  | .error e => (.error (.decode e), [])
  | .ok (zoneName, volumeID) =>
  match env.zoneEndpoint zoneName with
  | .error e => (.error (.zoneEndpointErr e), [.zoneEndpointCall zoneName])
  | .ok _ =>
  match env.getVolume volumeID with
  | .error e =>
    if e.kind = ApiErrKind.notFound then
      (.error (.stat .notFound (gs "volume not found")),
        [.zoneEndpointCall zoneName, .getVolumeCall volumeID])
    else
      (.error (.api e), [.zoneEndpointCall zoneName, .getVolumeCall volumeID])
  | .ok _ =>
  let nodeExpansionStep : Except DriverError Bool :=
    match req.volumeCapability with
    | none => .ok true
    | some vc =>
      match validateVolumeCapability (some vc) with
      | .error _ => .error (.stat .invalidArgument (gs "volumeCapabilities not supported"))
      | .ok _ => .ok (!vc.isBlock)
  match nodeExpansionStep with
  | .error e => (.error e, [.zoneEndpointCall zoneName, .getVolumeCall volumeID])
  | .ok nodeExpansionRequired =>
  match getNewVolumeSize req.capacityRange with
  | .error _ =>
    (.error (.stat .outOfRange (gs "invalid capacity range")),
      [.zoneEndpointCall zoneName, .getVolumeCall volumeID])
  | .ok newSizeInBytes =>
  if newSizeInBytes % GiB ≠ 0 then
    (.error (.plain (gs "requested size in bytes cannot be exactly converted to GiB")),
      [.zoneEndpointCall zoneName, .getVolumeCall volumeID])
  else
    match env.resizeVolumeApi volumeID (convertBytesToGiB newSizeInBytes) with
    | .error e =>
      (.error (.api e),
        [.zoneEndpointCall zoneName, .getVolumeCall volumeID,
          .resizeCall volumeID (convertBytesToGiB newSizeInBytes)])
    | .ok _ =>
      (.ok ⟨newSizeInBytes, nodeExpansionRequired⟩,
        [.zoneEndpointCall zoneName, .getVolumeCall volumeID,
          .resizeCall volumeID (convertBytesToGiB newSizeInBytes)])

/-! ### CreateVolume -/

/-- The volume content source of a CSI create request: a snapshot source
(whose inner snapshot message may be nil) or some other source type. -/
inductive ContentSource where
  | snapshotSource (snapshotID : Option GoString)
  | otherSource
deriving DecidableEq

structure CreateVolumeRequest where
  name : GoString
  capacityRange : Option CapacityRange
  requestedZones : List GoString
  contentSource : Option ContentSource
deriving DecidableEq

structure CreateVolumeResponse where
  volumeID : GoString
  capacityBytes : Int
  topologyZones : List GoString
  contentSource : Option ContentSource
deriving DecidableEq

/-- Modelled from the spec: the body of `getRequiredZone` is absent from the
sources (only its call in `CreateVolume`, helpers.go line 884, remains).  Per
spec section 4.3, the target zone comes from the topology requirement or
falls back to the node's own zone, and naming more than one zone is a hard
error. -/
def getRequiredZone (requestedZones : List GoString) (nodeZone : GoString) :
    Except DriverError GoString :=
  match requestedZones with
  | [] => .ok nodeZone
  | [z] => .ok z
  | _ => .error (.stat .invalidArgument (gs "more than one zone requested"))

/-- The idempotency scan of `CreateVolume` (helpers.go lines 902-913): first
listed volume whose name equals the requested name. -/
def findVolumeByName (vols : List Volume) (name : GoString) : Option Volume :=
  match vols with
  | [] => none
  | v :: rest => if v.name = name then some v else findVolumeByName rest name

/-- Snapshot-source resolution of `CreateVolume` (helpers.go lines 915-948). -/
def resolveSnapshotTarget (env : Env) (cs : Option ContentSource) :
    Except DriverError (Option GoString) × List Action :=
  match cs with
  | none => (.ok none, [])
  | some .otherSource =>
    (.error (.stat .invalidArgument (gs "unsupported volumeContentSource type")), [])
  | some (.snapshotSource none) =>
    (.error (.stat .internal (gs "error retrieving snapshot from the volumeContentSource")), [])
  | some (.snapshotSource (some sid)) =>
    match getExoscaleID sid with
    | .error e => (.error (.decode e), [])
    | .ok (_, snapshotID) =>
      match env.getSnapshot snapshotID with
      | .error e =>
        if e.kind = ApiErrKind.notFound then
          (.error (.stat .notFound (gs "snapshot not found")), [.getSnapshotCall snapshotID])
        else (.error (.api e), [.getSnapshotCall snapshotID])
      | .ok snap => (.ok (some snap.id), [.getSnapshotCall snapshotID])

/-- Size determination of `CreateVolume` (helpers.go lines 950-962): default
100 GiB; an explicit capacity range contributes only its `RequiredBytes`,
which must be exactly divisible by GiB. -/
def createSizeGiB : Option CapacityRange → Except DriverError Int
  | none => .ok DefaultVolumeSizeGiB
  | some cr =>
    if cr.requiredBytes % GiB ≠ 0 then
      .error (.plain (gs "requested size in bytes cannot be exactly converted to GiB"))
    else .ok (convertBytesToGiB cr.requiredBytes)

/-- `CreateVolume` (helpers.go lines 881-994, the current revision).  The
first component is `none` exactly when the Go code would panic dereferencing
a nil operation reference (line 988). -/
def createVolume (env : Env) (req : CreateVolumeRequest) :
    Option (Except DriverError CreateVolumeResponse) × List Action :=
  match getRequiredZone req.requestedZones env.nodeZone with
  | .error e => (some (.error e), [])
  | .ok zoneName =>
  match env.zoneEndpoint zoneName with
  | .error e => (some (.error (.zoneEndpointErr e)), [.zoneEndpointCall zoneName])
  | .ok _ =>
  match env.listVolumes with
  | .error e => (some (.error (.api e)), [.zoneEndpointCall zoneName, .listVolumesCall])
  | .ok volumes =>
  match findVolumeByName volumes req.name with
  | some v =>
    (some (.ok ⟨exoscaleID zoneName v.id, convertGiBToBytes v.size, newZoneTopology zoneName, none⟩),
      [.zoneEndpointCall zoneName, .listVolumesCall])
  | none =>
  match resolveSnapshotTarget env req.contentSource with
  | (.error e, tr) =>
    (some (.error e), [.zoneEndpointCall zoneName, .listVolumesCall] ++ tr)
  | (.ok snapshotTarget, tr) =>
  let base := [Action.zoneEndpointCall zoneName, Action.listVolumesCall] ++ tr
  match createSizeGiB req.capacityRange with
  | .error e => (some (.error e), base)
  | .ok sizeInGiB =>
  let request : CreateVolumeApiRequest := ⟨req.name, sizeInGiB, snapshotTarget⟩
  match env.validateReq request with
  | .error m => (some (.error (.plain m)), base)
  | .ok _ =>
  match env.createVolumeApi request with
  | .error e => (some (.error (.api e)), base ++ [.createVolumeCall request])
  | .ok op =>
  match env.wait op with
  | .error e => (some (.error (.api e)), base ++ [.createVolumeCall request, .waitCall])
  | .ok opDone =>
  match opDone.refID with
  | none => (none, base ++ [.createVolumeCall request, .waitCall])
  | some rid =>
    (some (.ok ⟨exoscaleID zoneName rid, convertGiBToBytes sizeInGiB,
        newZoneTopology zoneName, req.contentSource⟩),
      base ++ [.createVolumeCall request, .waitCall])

/-! ### CreateSnapshot -/

structure SnapshotResponse where
  snapshotID : GoString
  sourceVolumeID : GoString
  creationTime : Int
  readyToUse : Bool
deriving DecidableEq

/-- The name-matching loop of `CreateSnapshot` (helpers.go lines 1306-1323).
The Go code only logs a failed `GetBlockStorageSnapshot` and then reads
`snapshot.Name` from the nil result, a panic, which the first component
reports as `none`; `some none` means no snapshot of that name. -/
def findSnapshotByName (env : Env) (ids : List GoString) (name : GoString) :
    Option (Option Snapshot) × List Action :=
  match ids with
  | [] => (some none, [])
  | sid :: rest =>
    match env.getSnapshot sid with
    | .error _ => (none, [.getSnapshotCall sid])
    | .ok s =>
      if s.name = name then (some (some s), [.getSnapshotCall sid])
      else
        match findSnapshotByName env rest name with
        | (r, tr) => (r, .getSnapshotCall sid :: tr)

/-- `CreateSnapshot` (helpers.go lines 1286-1360).  The fetch of the source
volume (line 1301) only logs its error and falls through to
`volume.BlockStorageSnapshots` on the nil pointer (line 1306), so a failed
fetch is a panic (`none`), never an error response. -/
def createSnapshot (env : Env) (sourceVolumeId : GoString) (name : GoString) :
    Option (Except DriverError SnapshotResponse) × List Action :=
  match getExoscaleID sourceVolumeId with
  | .error e => (some (.error (.decode e)), [])
  | .ok (zoneName, volumeID) =>
  match env.zoneEndpoint zoneName with
  | .error e => (some (.error (.zoneEndpointErr e)), [.zoneEndpointCall zoneName])
  | .ok _ =>
  match env.getVolume volumeID with
  | .error _ => (none, [.zoneEndpointCall zoneName, .getVolumeCall volumeID])
  | .ok volume =>
  match findSnapshotByName env volume.snapshotIDs name with
  | (none, tr) => (none, [.zoneEndpointCall zoneName, .getVolumeCall volumeID] ++ tr)
  | (some (some snap), tr) =>
    (some (.ok ⟨exoscaleID zoneName snap.id, exoscaleID zoneName volume.id, snap.createdAt, true⟩),
      [.zoneEndpointCall zoneName, .getVolumeCall volumeID] ++ tr)
  | (some none, tr) =>
  let base := [Action.zoneEndpointCall zoneName, Action.getVolumeCall volumeID] ++ tr
  match env.createSnapshotApi volume.id name with
  | .error e => (some (.error (.api e)), base ++ [.createSnapshotCall volume.id name])
  | .ok op =>
  match env.wait op with
  | .error e =>
    (some (.error (.api e)), base ++ [.createSnapshotCall volume.id name, .waitCall])
  | .ok opDone =>
  match opDone.refID with
  | none =>
    (some (.error (.plain (gs "operation reference not found"))),
      base ++ [.createSnapshotCall volume.id name, .waitCall])
  | some rid =>
  match env.getSnapshot rid with
  | .error e =>
    (some (.error (.api e)),
      base ++ [.createSnapshotCall volume.id name, .waitCall, .getSnapshotCall rid])
  | .ok snap =>
    (some (.ok ⟨exoscaleID zoneName snap.id, exoscaleID zoneName volume.id, snap.createdAt, true⟩),
      base ++ [.createSnapshotCall volume.id name, .waitCall, .getSnapshotCall rid])

/-! ### Pagination -/

/-- A Go slice expression `xs[a:]`; `none` is the out-of-range panic. -/
def goSliceFrom {α : Type} (xs : List α) (a : Int) : Option (List α) :=
  if 0 ≤ a ∧ a ≤ xs.length then some (xs.drop a.toNat) else none

/-- A Go slice expression `xs[a:b]`; `none` is the out-of-range panic. -/
def goSliceRange {α : Type} (xs : List α) (a b : Int) : Option (List α) :=
  if 0 ≤ a ∧ a ≤ b ∧ b ≤ xs.length then some ((xs.take b.toNat).drop a.toNat) else none

/-- The manual pagination block shared verbatim by `ListVolumes` (helpers.go
lines 1241-1254) and `ListSnapshots` (helpers.go lines 1442-1455), applied
after the starting token has been parsed to the integer `numberResults`.
The outer `none` is the runtime panic of an out-of-range slice; otherwise the
page and the next-page token (`none` standing for the empty final token) are
returned. -/
def paginate {α : Type} (maxEntries : Int) (numberResults : Int) (xs : List α) :
    Option (List α × Option Int) :=
  if maxEntries = 0 then
    if numberResults ≠ 0 then
      (goSliceFrom xs numberResults).map (fun page => (page, none))
    else some (xs, none)
  else
    if maxEntries > xs.length - numberResults then
      (goSliceFrom xs numberResults).map (fun page => (page, none))
    else
      (goSliceRange xs numberResults (numberResults + maxEntries)).map
        (fun page => (page, some (numberResults + maxEntries)))

/-! ### Node service -/

/-- An operating-system error; `notExist` records whether `os.IsNotExist`
holds for it. -/
structure OsError where
  notExist : Bool
  msg : GoString
deriving DecidableEq

/-- The fields of a parsed mount-table record used by the embedded node
handlers (driver.go lines 297-318 define the full record; `NodePublishVolume`
reads only the per-mount options). -/
structure MountInfo where
  mountOptions : List GoString
deriving DecidableEq

/-- One call the node service issues to the operating system. -/
inductive NodeAction where
  | getDevicePathCall (id : GoString)
  | isSharedMountedCall (target : GoString) (dev : GoString)
  | isBlockDeviceCall (p : GoString)
  | openDeviceCall (p : GoString)
  | blkrogetCall (p : GoString)
  | blkrosetCall (p : GoString) (v : Int)
  | getMountInfoCall (p : GoString)
  | createMountPointCall (p : GoString) (file : Bool)
  | mountCall (source : GoString) (target : GoString) (fsType : GoString) (opts : List GoString)
  | formatAndMountCall (target : GoString) (dev : GoString) (fsType : GoString) (opts : List GoString)
deriving DecidableEq

/-- Whether a node action mutates the mount table, a device flag or the
filesystem (as opposed to merely inspecting state). -/
def NodeAction.isMutation : NodeAction → Bool
  | .blkrosetCall _ _ => true
  | .createMountPointCall _ _ => true
  | .mountCall _ _ _ _ => true
  | .formatAndMountCall _ _ _ _ => true
  | _ => false

/-- The host OS as seen by the node service (`diskUtils`, driver.go lines
269-517, plus the raw ioctls of node.go): one pure field per primitive. -/
structure NodeEnv where
  getDevicePath : GoString → Except OsError GoString
  isSharedMounted : GoString → GoString → Except OsError Bool
  isBlockDevice : GoString → Except OsError Bool
  openDevice : GoString → Except OsError Unit
  blkroget : GoString → Except OsError Int
  blkroset : GoString → Int → Except OsError Unit
  getMountInfo : GoString → Except OsError (Option MountInfo)
  createMountPoint : GoString → Bool → Except OsError Unit
  mountToTarget : GoString → GoString → GoString → List GoString → Except OsError Unit
  formatAndMount : GoString → GoString → GoString → List GoString → Except OsError Unit

structure NodeStageRequest where
  volumeId : GoString
  stagingTargetPath : GoString
  volumeCapability : Option VolumeCapability
deriving DecidableEq

/-- `NodeStageVolume` (node.go lines 33-105). -/
def nodeStageVolume (env : NodeEnv) (req : NodeStageRequest) :
    Except DriverError Unit × List NodeAction :=
  if req.stagingTargetPath = [] then
    (.error (.stat .invalidArgument (gs "stagingTargetPath not provided")), [])
  else match req.volumeCapability with
  | none => (.error (.stat .invalidArgument (gs "volumeCapability not provided")), [])
  | some vc =>
  match validateVolumeCapability (some vc) with
  | .error _ => (.error (.stat .invalidArgument (gs "volume capability not supported")), [])
  | .ok _ =>
  match getExoscaleID req.volumeId with
  | .error e => (.error (.decode e), [])
  | .ok (_, volumeID) =>
  match env.getDevicePath volumeID with
  | .error e =>
    if e.notExist then
      (.error (.stat .notFound (gs "volume is not mounted on node")), [.getDevicePathCall volumeID])
    else
      (.error (.stat .internal (gs "get device path for volume")), [.getDevicePathCall volumeID])
  | .ok devicePath =>
  if vc.isBlock then (.ok (), [.getDevicePathCall volumeID])
  else
  match env.isSharedMounted req.stagingTargetPath devicePath with
  | .error _ =>
    (.error (.stat .internal (gs "checking mount point of volume")),
      [.getDevicePathCall volumeID, .isSharedMountedCall req.stagingTargetPath devicePath])
  | .ok isMounted =>
  if isMounted then
    match env.isBlockDevice req.stagingTargetPath with
    | .error _ =>
      (.error (.stat .internal (gs "error checking stat")),
        [.getDevicePathCall volumeID, .isSharedMountedCall req.stagingTargetPath devicePath,
          .isBlockDeviceCall req.stagingTargetPath])
    | .ok blockDevice =>
      if blockDevice then
        (.error (.stat .unknown (gs "block device mounted as stagingTargetPath")),
          [.getDevicePathCall volumeID, .isSharedMountedCall req.stagingTargetPath devicePath,
            .isBlockDeviceCall req.stagingTargetPath])
      else
        (.ok (),
          [.getDevicePathCall volumeID, .isSharedMountedCall req.stagingTargetPath devicePath,
            .isBlockDeviceCall req.stagingTargetPath])
  else
    match vc.accessType with
    | some (.mount fsType mountOptions) =>
      match env.formatAndMount req.stagingTargetPath devicePath fsType mountOptions with
      | .error _ =>
        (.error (.stat .internal (gs "format and mount device")),
          [.getDevicePathCall volumeID, .isSharedMountedCall req.stagingTargetPath devicePath,
            .formatAndMountCall req.stagingTargetPath devicePath fsType mountOptions])
      | .ok _ =>
        (.ok (),
          [.getDevicePathCall volumeID, .isSharedMountedCall req.stagingTargetPath devicePath,
            .formatAndMountCall req.stagingTargetPath devicePath fsType mountOptions])
    | _ =>
      (.error (.stat .invalidArgument (gs "mount volume capability is nil")),
        [.getDevicePathCall volumeID, .isSharedMountedCall req.stagingTargetPath devicePath])

structure NodePublishRequest where
  volumeId : GoString
  targetPath : GoString
  stagingTargetPath : GoString
  volumeCapability : Option VolumeCapability
  readonly : Bool
deriving DecidableEq

/-- The read-only scan of `NodePublishVolume` (node.go lines 220-230): walk
the per-mount options, stopping at the first `rw` (read-write) or `ro`
(read-only). -/
def mountIsReadOnly : List GoString → Bool
  | [] => false
  | opt :: rest =>
    if opt = gs "rw" then false
    else if opt = gs "ro" then true
    else mountIsReadOnly rest

/-- `NodePublishVolume` (node.go lines 150-281): decode, validate, locate the
device, and either verify an existing mount of the target (idempotent path,
lines 187-238) or bind-mount the device node / staging path into the target
(lines 240-280). -/
def nodePublishVolume (env : NodeEnv) (req : NodePublishRequest) :
    Except DriverError Unit × List NodeAction :=
  match getExoscaleID req.volumeId with
  | .error e => (.error (.decode e), [])
  | .ok (_, volumeID) =>
  if req.targetPath = [] then
    (.error (.stat .invalidArgument (gs "targetPath not provided")), [])
  else match req.volumeCapability with
  | none => (.error (.stat .invalidArgument (gs "volumeCapability not provided")), [])
  | some vc =>
  match validateVolumeCapability (some vc) with
  | .error _ => (.error (.stat .invalidArgument (gs "volumeCapability not supported")), [])
  | .ok _ =>
  if req.stagingTargetPath = [] then
    (.error (.stat .failedPrecondition (gs "stagingTargetPath not provided")), [])
  else
  match env.getDevicePath volumeID with
  | .error _ =>
    (.error (.stat .notFound (gs "volume not found")), [.getDevicePathCall volumeID])
  | .ok devicePath =>
  let t0 := [NodeAction.getDevicePathCall volumeID,
    NodeAction.isSharedMountedCall req.targetPath devicePath]
  match env.isSharedMounted req.targetPath devicePath with
  | .error _ => (.error (.stat .internal (gs "error checking mount point of volume")), t0)
  | .ok isMounted =>
  if isMounted then
    match env.isBlockDevice req.targetPath with
    | .error _ =>
      (.error (.stat .internal (gs "error checking stat")),
        t0 ++ [.isBlockDeviceCall req.targetPath])
    | .ok blockDevice =>
    let t1 := t0 ++ [NodeAction.isBlockDeviceCall req.targetPath]
    if (blockDevice && vc.isMount) || (!blockDevice && vc.isBlock) then
      (.error (.stat .alreadyExists (gs "cannot change volumeCapability type")), t1)
    else if vc.isBlock then
      match env.openDevice devicePath with
      | .error _ =>
        (.error (.stat .internal (gs "error opening block device")),
          t1 ++ [.openDeviceCall devicePath])
      | .ok _ =>
      match env.blkroget devicePath with
      | .error _ =>
        (.error (.stat .internal (gs "error getting BLKROGET for block device")),
          t1 ++ [.openDeviceCall devicePath, .blkrogetCall devicePath])
      | .ok ro =>
        if (decide (ro = 1)) = req.readonly then
          (.ok (), t1 ++ [.openDeviceCall devicePath, .blkrogetCall devicePath])
        else
          (.error (.stat .alreadyExists (gs "volume does not match the given mount mode for the request")),
            t1 ++ [.openDeviceCall devicePath, .blkrogetCall devicePath])
    else
      match env.getMountInfo req.targetPath with
      | .error _ =>
        (.error (.stat .internal (gs "error getting mount information of path")),
          t1 ++ [.getMountInfoCall req.targetPath])
      | .ok mountInfo =>
      let isReadOnly :=
        match mountInfo with
        | none => false
        | some mi => mountIsReadOnly mi.mountOptions
      if isReadOnly ≠ req.readonly then
        (.error (.stat .alreadyExists (gs "volume with ID does not match the given mount mode for the request")),
          t1 ++ [.getMountInfoCall req.targetPath])
      else
        (.ok (), t1 ++ [.getMountInfoCall req.targetPath])
  else
    let roSetStep : Except DriverError Unit × List NodeAction :=
      match vc.accessType with
      | some .block =>
        if req.readonly then
          match env.openDevice devicePath with
          | .error _ =>
            (.error (.stat .internal (gs "error opening block device")),
              [.openDeviceCall devicePath])
          | .ok _ =>
            match env.blkroset devicePath 1 with
            | .error _ =>
              (.error (.stat .internal (gs "error setting BLKROSET for block device")),
                [.openDeviceCall devicePath, .blkrosetCall devicePath 1])
            | .ok _ => (.ok (), [.openDeviceCall devicePath, .blkrosetCall devicePath 1])
        else (.ok (), [])
      | _ => (.ok (), [])
    match roSetStep with
    | (.error e, tset) => (.error e, t0 ++ tset)
    | (.ok _, tset) =>
    let sourcePath :=
      match vc.accessType with
      | some (.mount _ _) => req.stagingTargetPath
      | some .block => devicePath
      | none => []
    let fsType :=
      match vc.accessType with
      | some (.mount ft _) => ft
      | _ => []
    let mountOptions :=
      (match vc.accessType with
       | some (.mount _ flags) => flags
       | _ => []) ++ [gs "bind"] ++ (if req.readonly then [gs "ro"] else [])
    match env.createMountPoint req.targetPath vc.isBlock with
    | .error _ =>
      (.error (.stat .internal (gs "error creating mount point for volume with ID")),
        t0 ++ tset ++ [.createMountPointCall req.targetPath vc.isBlock])
    | .ok _ =>
    match env.mountToTarget sourcePath req.targetPath fsType mountOptions with
    | .error _ =>
      (.error (.stat .internal (gs "error mounting source to target")),
        t0 ++ tset ++ [.createMountPointCall req.targetPath vc.isBlock,
          .mountCall sourcePath req.targetPath fsType mountOptions])
    | .ok _ =>
      (.ok (),
        t0 ++ tset ++ [.createMountPointCall req.targetPath vc.isBlock,
          .mountCall sourcePath req.targetPath fsType mountOptions])

/-! ### Concrete sample data for witnesses and counterexamples -/

def sampleZone : GoString := gs "ch-gva-2"

def sampleUUID : GoString := gs "e3b1a04f-1b23-4c7d-9a10-0123456789ab"

def sampleUUID2 : GoString := gs "0f2d9c4e-8a41-4b6e-b1c2-aabbccddeeff"

def sampleOp : Operation := ⟨some sampleUUID2⟩

/-- A 200 GiB volume named `vol-a`, unattached, with no snapshots. -/
def sampleVolume : Volume := ⟨sampleUUID, gs "vol-a", 200, none, []⟩

def notFoundApiError : ApiError := ⟨.notFound, gs "resource not found"⟩

def notAttachedApiError : ApiError :=
  ⟨.invalidRequest, gs "invalid request: Volume not attached"⟩

/-- A provider in which `sampleVolume` exists, deletes and detaches report
NotFound, and creates succeed with `sampleOp`. -/
def baseEnv : Env :=
  ⟨sampleZone,
    fun _ => .ok (),
    .ok [],
    fun _ => .ok sampleVolume,
    fun _ => .ok ⟨sampleUUID2, gs "snap-a", 5⟩,
    fun _ => .error notFoundApiError,
    fun _ => .error notFoundApiError,
    fun _ => .error notAttachedApiError,
    fun _ => .ok sampleOp,
    fun _ _ => .ok sampleOp,
    fun _ _ => .ok sampleOp,
    fun _ => .ok (),
    fun op => .ok op⟩

/-- A provider like `baseEnv` whose volume fetch fails with NotFound, and in
which `sampleVolume` is listed. -/
def envAbsentVolume : Env :=
  ⟨sampleZone,
    fun _ => .ok (),
    .ok [sampleVolume],
    fun _ => .error notFoundApiError,
    fun _ => .ok ⟨sampleUUID2, gs "snap-a", 5⟩,
    fun _ => .error notFoundApiError,
    fun _ => .error notFoundApiError,
    fun _ => .error notAttachedApiError,
    fun _ => .ok sampleOp,
    fun _ _ => .ok sampleOp,
    fun _ _ => .ok sampleOp,
    fun _ => .ok (),
    fun op => .ok op⟩

/-! ### Claim theorems -/

/-- C1: for every capacity range, `getNewVolumeSize` is a pure function of
(required, limit, min, max) returning the value or error of the first
matching rule of the ten-rule policy of spec section 4.2; rule 2
(limit < required, `LimitLessThanRequired`) fires before rules 3-6 whenever
both bounds are set; and the three scenario inputs behave as stated:
(0, 0) yields the minimum size, (min+10, min+5) fails LimitLessThanRequired,
(max+10, 0) fails RequiredGreaterThanMaximum. -/
theorem c1_capacity_negotiator_first_match :
    (∀ cr : CapacityRange,
      getNewVolumeSize (some cr) =
        firstMatch (negotiationRules MinimalVolumeSizeBytes MaximumVolumeSizeBytes
          cr.requiredBytes cr.limitBytes)) ∧
    (∀ r l : Int, 0 < r → 0 < l → l < r →
      getNewVolumeSize (some ⟨r, l⟩) = .error .limitLessThanRequiredBytes) ∧
    getNewVolumeSize (some ⟨0, 0⟩) = .ok MinimalVolumeSizeBytes ∧
    getNewVolumeSize (some ⟨MinimalVolumeSizeBytes + 10, MinimalVolumeSizeBytes + 5⟩) =
      .error .limitLessThanRequiredBytes ∧
    getNewVolumeSize (some ⟨MaximumVolumeSizeBytes + 10, 0⟩) =
      .error .requiredBytesGreaterThanMaximun := by
  refine ⟨fun cr => rfl, ?_, rfl, rfl, rfl⟩
  intro r l hr hl hlr
  simp [getNewVolumeSize, getNewVolumeSizeWith, hr, hl, hlr]

/-- Witness for C1: rule 2 applied at a concrete boundary input that also
satisfies rule guards further down the list. -/
theorem c1_capacity_negotiator_first_match_witness :
    getNewVolumeSize (some ⟨MaximumVolumeSizeBytes + 10, MinimalVolumeSizeBytes - 20⟩) =
      .error .limitLessThanRequiredBytes :=
  c1_capacity_negotiator_first_match.2.1 (MaximumVolumeSizeBytes + 10)
    (MinimalVolumeSizeBytes - 20) (by decide) (by decide) (by decide)

/-- C2: decoding inverts encoding for every zone without `/` and every valid
UUID; and `getExoscaleID` rejects every string whose `/`-separated segment
count is not exactly 2 or whose second segment is not a UUID. -/
theorem c2_identifier_codec_roundtrip :
    (∀ zone u : GoString, '/' ∉ zone → isUUIDFormat u = true →
      getExoscaleID (exoscaleID zone u) = .ok (zone, u)) ∧
    (∀ s : GoString, (splitSlash s).length ≠ 2 →
      getExoscaleID s = .error .malformedExoscaleID) ∧
    (∀ s z u : GoString, splitSlash s = [z, u] → isUUIDFormat u = false →
      getExoscaleID s = .error .invalidUUID) := by
  refine ⟨?_, ?_, ?_⟩
  · intro zone u hz hu
    have hu' : '/' ∉ u := isUUIDFormat_no_slash hu
    unfold getExoscaleID exoscaleID
    rw [splitSlash_append hz, splitSlash_no_slash hu']
    simp [parseUUID, hu]
  · intro s hlen
    unfold getExoscaleID
    rcases h : splitSlash s with _ | ⟨a, _ | ⟨b, _ | ⟨c, t⟩⟩⟩
    · exact absurd h (splitSlash_ne_nil s)
    · rfl
    · rw [h] at hlen; simp at hlen
    · rfl
  · intro s z u h hu
    unfold getExoscaleID
    rw [h]
    simp [parseUUID, hu]

/-- Witness for C2: the concrete identifier `ch-gva-2/<uuid>` decodes back to
its parts, and the spec scenario `ch-gva-2/not-a-uuid` is rejected. -/
theorem c2_identifier_codec_roundtrip_witness :
    getExoscaleID (exoscaleID sampleZone sampleUUID) = .ok (sampleZone, sampleUUID) ∧
    getExoscaleID (gs "ch-gva-2/not-a-uuid") = .error .invalidUUID ∧
    getExoscaleID (gs "no-separator-at-all") = .error .malformedExoscaleID :=
  ⟨c2_identifier_codec_roundtrip.1 sampleZone sampleUUID (by decide) (by decide),
   c2_identifier_codec_roundtrip.2.2 (gs "ch-gva-2/not-a-uuid") (gs "ch-gva-2")
     (gs "not-a-uuid") (by decide) (by decide),
   c2_identifier_codec_roundtrip.2.1 (gs "no-separator-at-all") (by decide)⟩

/-- The expand request of the C3 counterexample: resize `sampleVolume`
(currently 200 GiB) down to the 10 GiB minimum. -/
def shrinkRequest : ExpandRequest :=
  ⟨exoscaleID sampleZone sampleUUID, some ⟨MinimalVolumeSizeBytes, 0⟩, none⟩

/-- C3 counterexample: the capacity policy accepts 10 GiB, the fetched volume
currently holds 200 GiB, yet the current `ControllerExpandVolume`
(helpers.go lines 1464-1525) answers success and issues the 10 GiB resize to
the provider instead of failing InvalidArgument: the shrink guard exists only
in the superseded revision (helpers.go lines 730-737). -/
theorem c3_counterexample :
    getNewVolumeSize (some ⟨MinimalVolumeSizeBytes, 0⟩) = .ok MinimalVolumeSizeBytes ∧
    baseEnv.getVolume sampleUUID = .ok sampleVolume ∧
    MinimalVolumeSizeBytes < convertGiBToBytes sampleVolume.size ∧
    isInvalidArgumentResult (controllerExpandVolume baseEnv shrinkRequest).1 = false ∧
    (controllerExpandVolume baseEnv shrinkRequest).1 = .ok ⟨MinimalVolumeSizeBytes, true⟩ ∧
    (controllerExpandVolume baseEnv shrinkRequest).2 =
      [.zoneEndpointCall sampleZone, .getVolumeCall sampleUUID,
        .resizeCall sampleUUID MinimalVolumeSizeGiB] :=
  ⟨rfl, rfl, by decide, rfl, rfl, rfl⟩

/-- C3 amended: `ControllerExpandVolume` never compares the resolved size with
the volume's current size; whenever decoding, the zone client, the existence
check and the capacity policy succeed and the resolved size is an exact GiB
multiple, the resize is submitted to the provider and reported as success —
for every current volume size, including volumes strictly larger than the
resolved size. -/
theorem c3_expand_submits_resize_without_shrink_guard (env : Env)
    (req : ExpandRequest) (zoneName volumeID : GoString) (vol : Volume)
    (newSize : Int) (op : Operation)
    (h1 : getExoscaleID req.volumeId = .ok (zoneName, volumeID))
    (h2 : env.zoneEndpoint zoneName = .ok ())
    (h3 : env.getVolume volumeID = .ok vol)
    (h4 : req.volumeCapability = none)
    (h5 : getNewVolumeSize req.capacityRange = .ok newSize)
    (h6 : newSize % GiB = 0)
    (h7 : env.resizeVolumeApi volumeID (convertBytesToGiB newSize) = .ok op) :
    controllerExpandVolume env req =
      (.ok ⟨newSize, true⟩,
        [.zoneEndpointCall zoneName, .getVolumeCall volumeID,
          .resizeCall volumeID (convertBytesToGiB newSize)]) := by
  simp only [controllerExpandVolume, h1, h2, h3, h4, h5, h7, h6]
  simp

/-- Witness for C3's amended theorem at the concrete shrink request. -/
theorem c3_expand_submits_resize_without_shrink_guard_witness :
    controllerExpandVolume baseEnv shrinkRequest =
      (.ok ⟨MinimalVolumeSizeBytes, true⟩,
        [.zoneEndpointCall sampleZone, .getVolumeCall sampleUUID,
          .resizeCall sampleUUID (convertBytesToGiB MinimalVolumeSizeBytes)]) :=
  c3_expand_submits_resize_without_shrink_guard baseEnv shrinkRequest sampleZone
    sampleUUID sampleVolume MinimalVolumeSizeBytes sampleOp rfl rfl rfl rfl
    rfl (by decide) rfl

/-- C4: on a well-formed identifier, `DeleteVolume` and `DeleteSnapshot`
answer success when the provider delete reports NotFound, and
`ControllerUnpublishVolume` answers success when the detach reports NotFound
or an InvalidRequest whose message contains "Volume not attached"; every
other provider error is returned to the caller unchanged. -/
theorem c4_absent_resource_idempotent :
    (∀ (env : Env) (arg zoneName id : GoString) (e : ApiError),
      getExoscaleID arg = .ok (zoneName, id) →
      env.zoneEndpoint zoneName = .ok () →
      env.deleteVolumeApi id = .error e →
      ((e.kind = ApiErrKind.notFound → (deleteVolume env arg).1 = .ok ()) ∧
       (e.kind ≠ ApiErrKind.notFound → (deleteVolume env arg).1 = .error (.api e)))) ∧
    (∀ (env : Env) (arg zoneName id : GoString) (e : ApiError),
      getExoscaleID arg = .ok (zoneName, id) →
      env.zoneEndpoint zoneName = .ok () →
      env.deleteSnapshotApi id = .error e →
      ((e.kind = ApiErrKind.notFound → (deleteSnapshot env arg).1 = .ok ()) ∧
       (e.kind ≠ ApiErrKind.notFound → (deleteSnapshot env arg).1 = .error (.api e)))) ∧
    (∀ (env : Env) (arg zoneName id : GoString) (e : ApiError),
      getExoscaleID arg = .ok (zoneName, id) →
      env.zoneEndpoint zoneName = .ok () →
      env.detachVolumeApi id = .error e →
      (((e.kind = ApiErrKind.notFound ∨
          (e.kind = ApiErrKind.invalidRequest ∧ goContains volumeNotAttachedMsg e.msg)) →
         (controllerUnpublishVolume env arg).1 = .ok ()) ∧
       (¬ (e.kind = ApiErrKind.notFound ∨
          (e.kind = ApiErrKind.invalidRequest ∧ goContains volumeNotAttachedMsg e.msg)) →
         (controllerUnpublishVolume env arg).1 = .error (.api e)))) := by
  refine ⟨?_, ?_, ?_⟩
  · intro env arg zoneName id e h1 h2 h3
    constructor <;> intro hk <;> simp [deleteVolume, h1, h2, h3, hk]
  · intro env arg zoneName id e h1 h2 h3
    constructor <;> intro hk <;> simp [deleteSnapshot, h1, h2, h3, hk]
  · intro env arg zoneName id e h1 h2 h3
    constructor <;> intro hk <;> simp [controllerUnpublishVolume, h1, h2, h3, hk]

/-- Witness for C4: against a provider where the volume, the snapshot and the
attachment are all already absent (NotFound deletes, "Volume not attached"
detach), all three operations answer success. -/
theorem c4_absent_resource_idempotent_witness :
    (deleteVolume baseEnv (exoscaleID sampleZone sampleUUID)).1 = .ok () ∧
    (deleteSnapshot baseEnv (exoscaleID sampleZone sampleUUID2)).1 = .ok () ∧
    (controllerUnpublishVolume baseEnv (exoscaleID sampleZone sampleUUID)).1 = .ok () :=
  ⟨(c4_absent_resource_idempotent.1 baseEnv (exoscaleID sampleZone sampleUUID)
      sampleZone sampleUUID notFoundApiError rfl rfl rfl).1 rfl,
   (c4_absent_resource_idempotent.2.1 baseEnv (exoscaleID sampleZone sampleUUID2)
      sampleZone sampleUUID2 notFoundApiError rfl rfl rfl).1 rfl,
   (c4_absent_resource_idempotent.2.2 baseEnv (exoscaleID sampleZone sampleUUID)
      sampleZone sampleUUID notAttachedApiError rfl rfl rfl).1
     (Or.inr ⟨rfl, by decide⟩)⟩

/-- C5: whenever the listing of the resolved zone contains a volume with the
requested name, `CreateVolume` returns that volume's encoded identifier,
capacity and topology, contacting the provider only for the zone endpoint and
the listing — in particular no create request is ever submitted, so a
retried `CreateVolume` with the same name converges on the one existing
remote volume. -/
theorem c5_create_volume_idempotent_short_circuit (env : Env)
    (req : CreateVolumeRequest) (zoneName : GoString) (vols : List Volume)
    (v : Volume)
    (h1 : getRequiredZone req.requestedZones env.nodeZone = .ok zoneName)
    (h2 : env.zoneEndpoint zoneName = .ok ())
    (h3 : env.listVolumes = .ok vols)
    (h4 : findVolumeByName vols req.name = some v) :
    createVolume env req =
      (some (.ok ⟨exoscaleID zoneName v.id, convertGiBToBytes v.size,
        newZoneTopology zoneName, none⟩),
        [.zoneEndpointCall zoneName, .listVolumesCall]) ∧
    ∀ r : CreateVolumeApiRequest,
      Action.createVolumeCall r ∉ (createVolume env req).2 := by
  have hmain : createVolume env req =
      (some (.ok ⟨exoscaleID zoneName v.id, convertGiBToBytes v.size,
        newZoneTopology zoneName, none⟩),
        [.zoneEndpointCall zoneName, .listVolumesCall]) := by
    simp only [createVolume, h1, h2, h3, h4]
  refine ⟨hmain, ?_⟩
  intro r
  rw [hmain]
  simp

/-- Witness for C5: creating `vol-a` against a provider that already lists
`sampleVolume` under that name returns the existing volume and issues no
create call. -/
theorem c5_create_volume_idempotent_short_circuit_witness :
    createVolume envAbsentVolume ⟨gs "vol-a", none, [], none⟩ =
      (some (.ok ⟨exoscaleID sampleZone sampleVolume.id,
        convertGiBToBytes sampleVolume.size, newZoneTopology sampleZone, none⟩),
        [.zoneEndpointCall sampleZone, .listVolumesCall]) ∧
    ∀ r : CreateVolumeApiRequest,
      Action.createVolumeCall r ∉ (createVolume envAbsentVolume ⟨gs "vol-a", none, [], none⟩).2 :=
  c5_create_volume_idempotent_short_circuit envAbsentVolume
    ⟨gs "vol-a", none, [], none⟩ sampleZone [sampleVolume] sampleVolume
    rfl rfl rfl (by simp [findVolumeByName, sampleVolume])

/-- The create request of the C6 counterexample: required 11 GiB with a limit
of 10 GiB, a range rule 2 of the section-4.2 policy rejects. -/
def limitBelowRequiredCreate : CreateVolumeRequest :=
  ⟨gs "vol-new", some ⟨11 * GiB, 10 * GiB⟩, [], none⟩

/-- C6 counterexample: the section-4.2 policy rejects (11 GiB, 10 GiB) with
`LimitLessThanRequired`, yet `CreateVolume` (helpers.go lines 950-962) never
consults `getNewVolumeSize`: it takes `RequiredBytes` alone, converts it to
11 GiB, submits the create request to the provider and reports success. -/
theorem c6_counterexample :
    getNewVolumeSize (some ⟨11 * GiB, 10 * GiB⟩) = .error .limitLessThanRequiredBytes ∧
    (createVolume baseEnv limitBelowRequiredCreate).1 =
      some (.ok ⟨exoscaleID sampleZone sampleUUID2, 11 * GiB,
        newZoneTopology sampleZone, none⟩) ∧
    (createVolume baseEnv limitBelowRequiredCreate).2 =
      [.zoneEndpointCall sampleZone, .listVolumesCall,
        .createVolumeCall ⟨gs "vol-new", 11, none⟩, .waitCall] :=
  ⟨rfl, rfl, rfl⟩

/-- C6 amended: with no matching existing volume and no snapshot source, the
size `CreateVolume` submits to the provider is the request's `RequiredBytes`
converted exactly to GiB (having demanded divisibility); the limit bytes and
the section-4.2 negotiator play no part, so ranges that policy rejects are
still submitted whenever `RequiredBytes` is an exact GiB multiple. -/
theorem c6_create_volume_ignores_negotiator (env : Env)
    (req : CreateVolumeRequest) (zoneName : GoString) (vols : List Volume)
    (cr : CapacityRange)
    (h1 : getRequiredZone req.requestedZones env.nodeZone = .ok zoneName)
    (h2 : env.zoneEndpoint zoneName = .ok ())
    (h3 : env.listVolumes = .ok vols)
    (h4 : findVolumeByName vols req.name = none)
    (h5 : req.contentSource = none)
    (h6 : req.capacityRange = some cr)
    (h7 : cr.requiredBytes % GiB = 0)
    (h8 : env.validateReq ⟨req.name, convertBytesToGiB cr.requiredBytes, none⟩ = .ok ()) :
    Action.createVolumeCall ⟨req.name, convertBytesToGiB cr.requiredBytes, none⟩ ∈
      (createVolume env req).2 := by
  simp only [createVolume, h1, h2, h3, h4, h5, h6, resolveSnapshotTarget,
    createSizeGiB, h7]
  simp only [ne_eq, not_true_eq_false, if_false, ite_false, h8,
    List.nil_append, List.append_nil]
  cases hc : env.createVolumeApi ⟨req.name, convertBytesToGiB cr.requiredBytes, none⟩ with
  | error e => simp [hc]
  | ok op =>
    cases hw : env.wait op with
    | error e => simp [hc, hw]
    | ok opDone =>
      cases hr : opDone.refID with
      | none => simp [hc, hw, hr]
      | some rid => simp [hc, hw, hr]

/-- Witness for C6's amended theorem at the concrete rejected range. -/
theorem c6_create_volume_ignores_negotiator_witness :
    Action.createVolumeCall ⟨gs "vol-new", convertBytesToGiB (11 * GiB), none⟩ ∈
      (createVolume baseEnv limitBelowRequiredCreate).2 :=
  c6_create_volume_ignores_negotiator baseEnv limitBelowRequiredCreate sampleZone
    [] ⟨11 * GiB, 10 * GiB⟩ rfl rfl rfl rfl rfl rfl (by decide) rfl

theorem isMount_eq_false_of_isBlock {vc : VolumeCapability}
    (h : vc.isBlock = true) : vc.isMount = false := by
  cases hvc : vc.accessType with
  | none => simp [VolumeCapability.isBlock, hvc] at h
  | some a =>
    cases a with
    | block => simp [VolumeCapability.isMount, hvc]
    | mount f fl => simp [VolumeCapability.isBlock, hvc] at h

/-- C7: when the target path is already a shared mount of the device,
`NodePublishVolume` (a) fails AlreadyExists on a block/filesystem capability
mismatch; (b) in raw-block mode succeeds exactly when the device's BLKROGET
flag equals the request's readonly flag — with no mount-table or device
mutation on the success path — and fails AlreadyExists otherwise; (c) in
filesystem mode succeeds exactly when the mount's ro/rw option matches the
readonly flag — again without mutation — and fails AlreadyExists otherwise. -/
theorem c7_node_publish_already_mounted (env : NodeEnv)
    (req : NodePublishRequest) (z volumeID devicePath : GoString)
    (vc : VolumeCapability) (b : Bool)
    (h1 : getExoscaleID req.volumeId = .ok (z, volumeID))
    (h2 : req.targetPath ≠ [])
    (h3 : req.volumeCapability = some vc)
    (h4 : validateVolumeCapability (some vc) = .ok ())
    (h5 : req.stagingTargetPath ≠ [])
    (h6 : env.getDevicePath volumeID = .ok devicePath)
    (h7 : env.isSharedMounted req.targetPath devicePath = .ok true)
    (h8 : env.isBlockDevice req.targetPath = .ok b) :
    (((b && vc.isMount) || (!b && vc.isBlock)) = true →
      (nodePublishVolume env req).1 =
        .error (.stat .alreadyExists (gs "cannot change volumeCapability type"))) ∧
    (∀ ro : Int, vc.isBlock = true → b = true →
      env.openDevice devicePath = .ok () → env.blkroget devicePath = .ok ro →
      ((decide (ro = 1) = req.readonly →
          (nodePublishVolume env req).1 = .ok () ∧
          ∀ a ∈ (nodePublishVolume env req).2, a.isMutation = false) ∧
       (decide (ro = 1) ≠ req.readonly →
          (nodePublishVolume env req).1 =
            .error (.stat .alreadyExists
              (gs "volume does not match the given mount mode for the request"))))) ∧
    (∀ (fsType : GoString) (flags : List GoString) (mi : MountInfo),
      vc.accessType = some (.mount fsType flags) → b = false →
      env.getMountInfo req.targetPath = .ok (some mi) →
      ((mountIsReadOnly mi.mountOptions = req.readonly →
          (nodePublishVolume env req).1 = .ok () ∧
          ∀ a ∈ (nodePublishVolume env req).2, a.isMutation = false) ∧
       (mountIsReadOnly mi.mountOptions ≠ req.readonly →
          (nodePublishVolume env req).1 =
            .error (.stat .alreadyExists
              (gs "volume with ID does not match the given mount mode for the request"))))) := by
  refine ⟨?_, ?_, ?_⟩
  · intro hbm
    simp [nodePublishVolume, h1, h2, h3, h4, h5, h6, h7, h8, hbm]
  · intro ro hb hbt ho hr
    have hm : vc.isMount = false := isMount_eq_false_of_isBlock hb
    constructor
    · intro hro
      constructor
      · simp [nodePublishVolume, h1, h2, h3, h4, h5, h6, h7, h8, hb, hbt, hm,
          ho, hr, hro]
      · intro a ha
        simp only [nodePublishVolume, h1, h2, h3, h4, h5, h6, h7, h8, hb, hbt,
          hm, ho, hr, hro] at ha
        simp only [ne_eq, not_true_eq_false, ite_false, if_neg, Bool.and_self,
          Bool.false_and, Bool.and_false, Bool.or_self, ite_true] at ha
        revert ha
        simp [NodeAction.isMutation, List.mem_cons, List.mem_append]
        rintro (rfl | rfl | rfl | rfl | rfl) <;> rfl
    · intro hro
      simp [nodePublishVolume, h1, h2, h3, h4, h5, h6, h7, h8, hb, hbt, hm,
        ho, hr, hro]
  · intro fsType flags mi hmt hbf hmi
    have hm : vc.isMount = true := by simp [VolumeCapability.isMount, hmt]
    have hb : vc.isBlock = false := by simp [VolumeCapability.isBlock, hmt]
    constructor
    · intro hro
      constructor
      · simp [nodePublishVolume, h1, h2, h3, h4, h5, h6, h7, h8, hm, hb, hbf,
          hmi, hro]
      · intro a ha
        simp only [nodePublishVolume, h1, h2, h3, h4, h5, h6, h7, h8, hm, hb,
          hbf, hmi, hro] at ha
        revert ha
        simp [NodeAction.isMutation, List.mem_cons, List.mem_append]
        rintro (rfl | rfl | rfl | rfl) <;> rfl
    · intro hro
      simp [nodePublishVolume, h1, h2, h3, h4, h5, h6, h7, h8, hm, hb, hbf,
        hmi, hro]

/-- A host where the device is attached, the target is already a shared raw
block mount, and the device's read-only flag is set (BLKROGET answers 1). -/
def readOnlyHost : NodeEnv :=
  ⟨fun _ => .ok (gs "/dev/disk/by-id/virtio-e3b1a04f-1b23-4c7d"),
    fun _ _ => .ok true,
    fun _ => .ok true,
    fun _ => .ok (),
    fun _ => .ok 1,
    fun _ _ => .ok (),
    fun _ => .ok (some ⟨[gs "rw"]⟩),
    fun _ _ => .ok (),
    fun _ _ _ _ => .ok (),
    fun _ _ _ _ => .ok ()⟩

def rawBlockCap : VolumeCapability := ⟨some .singleNodeWriter, some .block⟩

/-- A repeated raw-block publish with readonly=true of an already-mounted
volume. -/
def rawBlockRepublish : NodePublishRequest :=
  ⟨exoscaleID sampleZone sampleUUID, gs "/var/lib/kubelet/target",
    gs "/var/lib/kubelet/staging", some rawBlockCap, true⟩

/-- Witness for C7: the matching-readonly republish of a raw block mount
answers success without mutating the mount table or the device. -/
theorem c7_node_publish_already_mounted_witness :
    (nodePublishVolume readOnlyHost rawBlockRepublish).1 = .ok () ∧
    ∀ a ∈ (nodePublishVolume readOnlyHost rawBlockRepublish).2,
      a.isMutation = false :=
  ((c7_node_publish_already_mounted readOnlyHost rawBlockRepublish sampleZone
      sampleUUID (gs "/dev/disk/by-id/virtio-e3b1a04f-1b23-4c7d") rawBlockCap
      true rfl (by decide) rfl rfl (by decide) rfl rfl rfl).2.1 1 rfl rfl rfl
    rfl).1 rfl

/-- An orchestrator-supplied identifier with no `/` separator. -/
def malformedID : GoString := gs "not-an-exoscale-id"

/-- C8 counterexample: `DeleteVolume` on a malformed identifier does return
immediately with the decode error and an empty provider trace, but that error
is the plain `getExoscaleID` error passed through (`return nil, err`,
helpers.go lines 1001-1005), not an InvalidArgument-coded status error. -/
theorem c8_counterexample :
    isInvalidArgumentResult (deleteVolume baseEnv malformedID).1 = false ∧
    deleteVolume baseEnv malformedID =
      (.error (.decode .malformedExoscaleID), []) :=
  ⟨rfl, rfl⟩

/-- C8 amended: every modelled controller and node operation that receives an
orchestrator-supplied identifier propagates a decode failure immediately and
unchanged — as the raw decode error, not an InvalidArgument status — with an
empty provider/OS call trace, and never falls back to a default zone. -/
theorem c8_decode_failure_returns_before_any_call :
    (∀ (env : Env) (arg : GoString) (e : DecodeErr),
      getExoscaleID arg = .error e →
      deleteVolume env arg = (.error (.decode e), [])) ∧
    (∀ (env : Env) (arg : GoString) (e : DecodeErr),
      getExoscaleID arg = .error e →
      deleteSnapshot env arg = (.error (.decode e), [])) ∧
    (∀ (env : Env) (arg : GoString) (e : DecodeErr),
      getExoscaleID arg = .error e →
      controllerUnpublishVolume env arg = (.error (.decode e), [])) ∧
    (∀ (env : Env) (req : ExpandRequest) (e : DecodeErr),
      getExoscaleID req.volumeId = .error e →
      controllerExpandVolume env req = (.error (.decode e), [])) ∧
    (∀ (env : Env) (vid name : GoString) (e : DecodeErr),
      getExoscaleID vid = .error e →
      createSnapshot env vid name = (some (.error (.decode e)), [])) ∧
    (∀ (env : NodeEnv) (req : NodeStageRequest) (vc : VolumeCapability) (e : DecodeErr),
      req.stagingTargetPath ≠ [] →
      req.volumeCapability = some vc →
      validateVolumeCapability (some vc) = .ok () →
      getExoscaleID req.volumeId = .error e →
      nodeStageVolume env req = (.error (.decode e), [])) ∧
    (∀ (env : NodeEnv) (req : NodePublishRequest) (e : DecodeErr),
      getExoscaleID req.volumeId = .error e →
      nodePublishVolume env req = (.error (.decode e), [])) := by
  refine ⟨?_, ?_, ?_, ?_, ?_, ?_, ?_⟩
  · intro env arg e h; simp [deleteVolume, h]
  · intro env arg e h; simp [deleteSnapshot, h]
  · intro env arg e h; simp [controllerUnpublishVolume, h]
  · intro env req e h; simp [controllerExpandVolume, h]
  · intro env vid name e h; simp [createSnapshot, h]
  · intro env req vc e h1 h2 h3 h4; simp [nodeStageVolume, h1, h2, h3, h4]
  · intro env req e h; simp [nodePublishVolume, h]

/-- Witness for C8's amended theorem: three handlers at the concrete
malformed identifier. -/
theorem c8_decode_failure_returns_before_any_call_witness :
    deleteVolume baseEnv malformedID = (.error (.decode .malformedExoscaleID), []) ∧
    controllerUnpublishVolume baseEnv malformedID =
      (.error (.decode .malformedExoscaleID), []) ∧
    nodePublishVolume readOnlyHost
      ⟨malformedID, gs "/t", gs "/s", some rawBlockCap, false⟩ =
      (.error (.decode .malformedExoscaleID), []) :=
  ⟨c8_decode_failure_returns_before_any_call.1 baseEnv malformedID
      .malformedExoscaleID rfl,
   c8_decode_failure_returns_before_any_call.2.2.1 baseEnv malformedID
      .malformedExoscaleID rfl,
   c8_decode_failure_returns_before_any_call.2.2.2.2.2.2 readOnlyHost
      ⟨malformedID, gs "/t", gs "/s", some rawBlockCap, false⟩
      .malformedExoscaleID rfl⟩

theorem isSome_of_map {α β : Type} (f : α → β) (o : Option α) :
    (o.map f).isSome = o.isSome := by
  cases o <;> rfl

theorem goSliceFrom_isSome {α : Type} (xs : List α) (a : Int) :
    (goSliceFrom xs a).isSome = true ↔ (0 ≤ a ∧ a ≤ xs.length) := by
  unfold goSliceFrom
  split <;> simp_all

theorem goSliceRange_isSome {α : Type} (xs : List α) (a b : Int) :
    (goSliceRange xs a b).isSome = true ↔ (0 ≤ a ∧ a ≤ b ∧ b ≤ xs.length) := by
  unfold goSliceRange
  split <;> simp_all

/-- C9: the manual pagination step shared by `ListVolumes` and
`ListSnapshots` survives (returns a page rather than panicking on an
out-of-range slice) exactly for starting tokens in `[0, number of entries]`;
every negative token and every token strictly greater than the number of
aggregated entries panics instead of returning an error. -/
theorem c9_pagination_total_only_in_range {α : Type} (maxEntries t : Int)
    (xs : List α) (hm : 0 ≤ maxEntries) :
    (paginate maxEntries t xs).isSome = true ↔ (0 ≤ t ∧ t ≤ xs.length) := by
  unfold paginate
  by_cases h0 : maxEntries = 0
  · simp only [h0, if_true, ite_true]
    by_cases ht : t = 0
    · subst ht
      simp
    · simp only [ht, if_true, ite_true, if_neg, ite_false, ne_eq,
        not_false_eq_true, isSome_of_map]
      exact goSliceFrom_isSome xs t
  · simp only [h0, if_false, ite_false]
    by_cases hgt : maxEntries > xs.length - t
    · simp only [hgt, if_true, ite_true, isSome_of_map]
      exact goSliceFrom_isSome xs t
    · simp only [hgt, if_false, ite_false, isSome_of_map]
      rw [goSliceRange_isSome]
      omega

/-- Witness for C9: with 5 entries and page size 2, token 7 panics (and is
reported as such), per the totality characterisation. -/
theorem c9_pagination_total_only_in_range_witness :
    ((paginate 2 7 [10, 20, 30, 40, 50] : Option (List Int × Option Int)).isSome = true ↔
      (0 ≤ (7 : Int) ∧ (7 : Int) ≤ ([10, 20, 30, 40, 50] : List Int).length)) :=
  c9_pagination_total_only_in_range 2 7 [10, 20, 30, 40, 50] (by decide)

/-- C10: when fetching the source volume fails — for any provider error,
NotFound included — `CreateSnapshot` only logs the failure and falls through
to the nil volume's snapshot list, a panic; in particular no error response,
and so no NotFound result, ever surfaces for such inputs. -/
theorem c10_create_snapshot_unguarded_fetch (env : Env)
    (vid name zoneName volumeID : GoString) (e : ApiError)
    (h1 : getExoscaleID vid = .ok (zoneName, volumeID))
    (h2 : env.zoneEndpoint zoneName = .ok ())
    (h3 : env.getVolume volumeID = .error e) :
    createSnapshot env vid name =
      (none, [.zoneEndpointCall zoneName, .getVolumeCall volumeID]) ∧
    ∀ msg : GoString,
      (createSnapshot env vid name).1 ≠
        some (.error (.stat .notFound msg)) := by
  have hmain : createSnapshot env vid name =
      (none, [.zoneEndpointCall zoneName, .getVolumeCall volumeID]) := by
    simp [createSnapshot, h1, h2, h3]
  refine ⟨hmain, ?_⟩
  intro msg
  rw [hmain]
  simp

/-- Witness for C10: snapshotting a volume the provider reports NotFound
panics rather than answering NotFound. -/
theorem c10_create_snapshot_unguarded_fetch_witness :
    createSnapshot envAbsentVolume (exoscaleID sampleZone sampleUUID) (gs "snap-b") =
      (none, [.zoneEndpointCall sampleZone, .getVolumeCall sampleUUID]) ∧
    ∀ msg : GoString,
      (createSnapshot envAbsentVolume (exoscaleID sampleZone sampleUUID) (gs "snap-b")).1 ≠
        some (.error (.stat .notFound msg)) :=
  c10_create_snapshot_unguarded_fetch envAbsentVolume
    (exoscaleID sampleZone sampleUUID) (gs "snap-b") sampleZone sampleUUID
    notFoundApiError rfl rfl rfl

end ExoCSI
